import Mathlib

/-!
# Verification of the CAF actor control block

A shallow embedding of `src/libcaf_core/caf/actor_control_block.hpp`:
the dual (strong/weak) reference-counting protocol, the control-block
constructor, the constant-offset conversions between control-block and
payload addresses, and the serialization (inspect) and resolution
(load/save) hooks for strong and weak actor pointers.

Functions whose bodies live in the header are translated directly from
the source. The reference-release functions, the upgrade function and
`load_actor`/`save_actor` are only declared in the header (their
definitions live in a translation unit that is not part of the sources
at hand), so those are modelled from the specification, as marked in
their doc comments.
-/

set_option autoImplicit false

namespace CafModel

/-- Dynamic state of one `actor_control_block`: the two atomic counters
(`strong_refs`, `weak_refs`, both starting at 1 in the constructor) together
with instrumentation counting how often the two stored destructor callbacks
(`data_dtor` for the actor payload, `block_dtor` for the storage) have been
invoked. The destructor-call counters are observation variables of the model,
not fields of the C++ struct. -/
structure BlockState where
  strong_refs : Nat
  weak_refs : Nat
  dataDtorCalls : Nat
  blockDtorCalls : Nat
deriving DecidableEq, Repr

/-- Initial counter state established by `actor_control_block`'s constructor:
`strong_refs(1), weak_refs(1)`, and no destructor has run yet. -/
def initBlock : BlockState :=
  { strong_refs := 1, weak_refs := 1, dataDtorCalls := 0, blockDtorCalls := 0 }

/-- From the source (`intrusive_ptr_add_ref`, actor_control_block.hpp:138):
`x->strong_refs.fetch_add(1, std::memory_order_relaxed)`. -/
def intrusive_ptr_add_ref (s : BlockState) : BlockState :=
  { s with strong_refs := s.strong_refs + 1 }

/-- From the source (`intrusive_ptr_add_weak_ref`, actor_control_block.hpp:130):
`x->weak_refs.fetch_add(1, std::memory_order_relaxed)`. -/
def intrusive_ptr_add_weak_ref (s : BlockState) : BlockState :=
  { s with weak_refs := s.weak_refs + 1 }

/-- Modelled from the spec: `intrusive_ptr_release_weak` is only declared in
the header. Per the spec, `release_weak()` decrements `weak_count` and, if the
result is zero, invokes the storage destructor (`block_dtor`) exactly once. -/
def intrusive_ptr_release_weak (s : BlockState) : BlockState :=
  let w := s.weak_refs - 1
  if w = 0 then
    { s with weak_refs := w, blockDtorCalls := s.blockDtorCalls + 1 }
  else
    { s with weak_refs := w }

/-- Modelled from the spec: `intrusive_ptr_release` is only declared in the
header. Per the spec, `release_strong()` decrements `strong_count`; if the
result is zero it invokes the payload destructor (`data_dtor`) exactly once
and then performs `release_weak()` on behalf of the implicit weak unit owned
by the strong-reference pool. -/
def intrusive_ptr_release (s : BlockState) : BlockState :=
  let n := s.strong_refs - 1
  if n = 0 then
    intrusive_ptr_release_weak
      { s with strong_refs := n, dataDtorCalls := s.dataDtorCalls + 1 }
  else
    { s with strong_refs := n }

/-- Modelled from the spec: `intrusive_ptr_upgrade_weak` is only declared in
the header. Per the spec, the upgrade reads `strong_count` in a
compare-and-swap loop: if it is 0 the upgrade fails without mutating
anything; otherwise the count is incremented by 1 (the CAS only succeeds
while the count is still positive). The sequential model returns the
success flag and the resulting state. -/
def intrusive_ptr_upgrade_weak (s : BlockState) : Bool × BlockState :=
  if s.strong_refs = 0 then
    (false, s)
  else
    (true, { s with strong_refs := s.strong_refs + 1 })

/-- One reference-counting operation on a control block. -/
inductive RefOp where
  | addStrong
  | releaseStrong
  | addWeak
  | releaseWeak
  | upgradeWeak
deriving DecidableEq, Repr

/-- Effect of one operation on the block state (the upgrade's success flag is
dropped here; `intrusive_ptr_upgrade_weak` itself exposes it). -/
def step : RefOp → BlockState → BlockState
  | .addStrong, s => intrusive_ptr_add_ref s
  | .releaseStrong, s => intrusive_ptr_release s
  | .addWeak, s => intrusive_ptr_add_weak_ref s
  | .releaseWeak, s => intrusive_ptr_release_weak s
  | .upgradeWeak, s => (intrusive_ptr_upgrade_weak s).2

/-- Well-formed use of the reference-counting API: `add_strong` and
`release_strong` are issued by a caller that already holds a strong
reference (so `strong_refs > 0`); `add_weak` by a caller holding some
reference keeping the block alive (`weak_refs > 0`); `release_weak` and
`lock`/upgrade by a holder of an explicit weak handle, i.e. a weak unit
beyond the implicit one owned by the strong-reference pool. -/
def validOp : RefOp → BlockState → Bool
  | .addStrong, s => 0 < s.strong_refs
  | .releaseStrong, s => 0 < s.strong_refs
  | .addWeak, s => 0 < s.weak_refs
  | .releaseWeak, s => (if 0 < s.strong_refs then 1 else 0) < s.weak_refs
  | .upgradeWeak, s => (if 0 < s.strong_refs then 1 else 0) < s.weak_refs

/-- A sequence of operations is valid from `s` when each operation is valid
in the state in which it executes. -/
def validSeq : List RefOp → BlockState → Bool
  | [], _ => true
  | op :: ops, s => validOp op s && validSeq ops (step op s)

/-- Run a sequence of operations from a state. -/
def run : List RefOp → BlockState → BlockState
  | [], s => s
  | op :: ops, s => run ops (step op s)

/-- Reachability invariant of the dual-counter protocol: the payload
destructor has run exactly once iff `strong_refs` is 0, the storage
destructor exactly once iff `weak_refs` is 0, storage destruction implies
payload destruction, and live strong references pin a weak unit. -/
def Inv (s : BlockState) : Prop :=
  (s.strong_refs = 0 → s.dataDtorCalls = 1)
  ∧ (0 < s.strong_refs → s.dataDtorCalls = 0)
  ∧ (s.weak_refs = 0 → s.blockDtorCalls = 1)
  ∧ (0 < s.weak_refs → s.blockDtorCalls = 0)
  ∧ (s.weak_refs = 0 → s.strong_refs = 0)
  ∧ (0 < s.strong_refs → 0 < s.weak_refs)

theorem inv_initBlock : Inv initBlock := by
  simp [Inv, initBlock]

theorem inv_step (op : RefOp) (s : BlockState) (hv : validOp op s = true)
    (hs : Inv s) : Inv (step op s) := by
  obtain ⟨h1, h2, h3, h4, h5, h6⟩ := hs
  cases op <;>
    simp only [step, validOp, intrusive_ptr_add_ref, intrusive_ptr_add_weak_ref,
      intrusive_ptr_release, intrusive_ptr_release_weak,
      intrusive_ptr_upgrade_weak, decide_eq_true_eq] at hv ⊢ <;>
    (try split_ifs at hv ⊢) <;>
    simp_all [Inv] <;> omega

theorem inv_run (ops : List RefOp) (s : BlockState)
    (hv : validSeq ops s = true) (hs : Inv s) : Inv (run ops s) := by
  induction ops generalizing s with
  | nil => exact hs
  | cons op ops ih =>
    simp only [validSeq, Bool.and_eq_true] at hv
    exact ih (step op s) hv.2 (inv_step op s hv.1 hs)

/-- Strengthened invariant for runs that use only the strong-reference
operations: the weak counter stays at its initial value 1 until the last
strong reference goes away, at which point the implicit weak unit is
released as well (dropping `weak_refs` to 0 and firing the storage
destructor, since no explicit weak handle exists). -/
def InvStrong (s : BlockState) : Prop :=
  (s.strong_refs = 0 →
    s.dataDtorCalls = 1 ∧ s.weak_refs = 0 ∧ s.blockDtorCalls = 1)
  ∧ (0 < s.strong_refs →
    s.dataDtorCalls = 0 ∧ s.weak_refs = 1 ∧ s.blockDtorCalls = 0)

theorem invStrong_step (op : RefOp) (s : BlockState)
    (hop : op = RefOp.addStrong ∨ op = RefOp.releaseStrong)
    (hv : validOp op s = true) (hs : InvStrong s) : InvStrong (step op s) := by
  obtain ⟨h1, h2⟩ := hs
  rcases hop with rfl | rfl <;>
    simp only [step, validOp, intrusive_ptr_add_ref, intrusive_ptr_release,
      intrusive_ptr_release_weak, decide_eq_true_eq] at hv ⊢ <;>
    (try split_ifs) <;>
    simp_all [InvStrong]

theorem invStrong_run (ops : List RefOp) (s : BlockState)
    (hops : ∀ op ∈ ops, op = RefOp.addStrong ∨ op = RefOp.releaseStrong)
    (hv : validSeq ops s = true) (hs : InvStrong s) : InvStrong (run ops s) := by
  induction ops generalizing s with
  | nil => exact hs
  | cons op ops ih =>
    simp only [validSeq, Bool.and_eq_true] at hv
    exact ih (step op s) (fun o ho => hops o (List.mem_cons_of_mem op ho)) hv.2
      (invStrong_step op s (hops op (List.mem_cons_self op ops)) hv.1 hs)

/-- C1: for every valid finite sequence of `add_strong`/`release_strong`
operations starting from strong count 1, the payload destructor
(`data_dtor`) has run exactly once iff the net strong count has reached 0
(and never more than once); and the `release_strong` that brings the count
to 0 also performs one `release_weak` on behalf of the implicit weak unit
owned by the strong-reference pool, so in a strong-only run the weak count
drops from its initial 1 to 0 exactly when the payload is destroyed. -/
theorem release_strong_destroys_payload_exactly_once (ops : List RefOp)
    (hops : ∀ op ∈ ops, op = RefOp.addStrong ∨ op = RefOp.releaseStrong)
    (hv : validSeq ops initBlock = true) :
    (run ops initBlock).dataDtorCalls
        = (if (run ops initBlock).strong_refs = 0 then 1 else 0)
    ∧ (run ops initBlock).weak_refs
        = (if (run ops initBlock).strong_refs = 0 then 0 else 1)
    ∧ (run ops initBlock).dataDtorCalls ≤ 1
    ∧ (∀ s : BlockState, s.strong_refs = 1 →
        (intrusive_ptr_release s).dataDtorCalls = s.dataDtorCalls + 1
        ∧ (intrusive_ptr_release s).weak_refs = s.weak_refs - 1) := by
  have hinit : InvStrong initBlock := by simp [InvStrong, initBlock]
  have h := invStrong_run ops initBlock hops hv hinit
  obtain ⟨h0, hpos⟩ := h
  refine ⟨?_, ?_, ?_, ?_⟩
  · split_ifs with hz
    · exact (h0 hz).1
    · exact (hpos (Nat.pos_of_ne_zero hz)).1
  · split_ifs with hz
    · exact (h0 hz).2.1
    · exact (hpos (Nat.pos_of_ne_zero hz)).2.1
  · rcases Nat.eq_zero_or_pos (run ops initBlock).strong_refs with hz | hz
    · have hd := (h0 hz).1
      omega
    · have hd := (hpos hz).1
      omega
  · intro s hs1
    simp [intrusive_ptr_release, intrusive_ptr_release_weak, hs1]
    split_ifs <;> simp

/-- Witness for C1 at the concrete run
`[addStrong, releaseStrong, releaseStrong]` from the initial state. -/
theorem release_strong_destroys_payload_exactly_once_witness :
    (run [RefOp.addStrong, RefOp.releaseStrong, RefOp.releaseStrong]
        initBlock).dataDtorCalls
        = (if (run [RefOp.addStrong, RefOp.releaseStrong, RefOp.releaseStrong]
            initBlock).strong_refs = 0 then 1 else 0)
    ∧ (run [RefOp.addStrong, RefOp.releaseStrong, RefOp.releaseStrong]
        initBlock).weak_refs
        = (if (run [RefOp.addStrong, RefOp.releaseStrong, RefOp.releaseStrong]
            initBlock).strong_refs = 0 then 0 else 1)
    ∧ (run [RefOp.addStrong, RefOp.releaseStrong, RefOp.releaseStrong]
        initBlock).dataDtorCalls ≤ 1
    ∧ (∀ s : BlockState, s.strong_refs = 1 →
        (intrusive_ptr_release s).dataDtorCalls = s.dataDtorCalls + 1
        ∧ (intrusive_ptr_release s).weak_refs = s.weak_refs - 1) :=
  release_strong_destroys_payload_exactly_once
    [RefOp.addStrong, RefOp.releaseStrong, RefOp.releaseStrong]
    (by decide) (by decide)

/-- C2: for every valid finite sequence of strong and weak reference
operations starting from strong count 1 and weak count 1, the storage
destructor (`block_dtor`) runs at most once, only when the net weak count
(including the implicit unit owned by the strong-reference pool) reaches 0,
and never before the payload destructor (`data_dtor`) has run. -/
theorem release_weak_destroys_storage_after_payload (ops : List RefOp)
    (hv : validSeq ops initBlock = true) :
    (run ops initBlock).blockDtorCalls ≤ 1
    ∧ (run ops initBlock).blockDtorCalls
        = (if (run ops initBlock).weak_refs = 0 then 1 else 0)
    ∧ (run ops initBlock).blockDtorCalls ≤ (run ops initBlock).dataDtorCalls := by
  have h := inv_run ops initBlock hv inv_initBlock
  obtain ⟨h1, h2, h3, h4, h5, h6⟩ := h
  by_cases hw : (run ops initBlock).weak_refs = 0
  · have hstrong := h5 hw
    simp [hw, h3 hw, h1 hstrong]
  · have hpos : 0 < (run ops initBlock).weak_refs := Nat.pos_of_ne_zero hw
    simp [hw, h4 hpos]

/-- Witness for C2 at the concrete run
`[addWeak, releaseStrong, releaseWeak]` from the initial state. -/
theorem release_weak_destroys_storage_after_payload_witness :
    (run [RefOp.addWeak, RefOp.releaseStrong, RefOp.releaseWeak]
        initBlock).blockDtorCalls ≤ 1
    ∧ (run [RefOp.addWeak, RefOp.releaseStrong, RefOp.releaseWeak]
        initBlock).blockDtorCalls
        = (if (run [RefOp.addWeak, RefOp.releaseStrong, RefOp.releaseWeak]
            initBlock).weak_refs = 0 then 1 else 0)
    ∧ (run [RefOp.addWeak, RefOp.releaseStrong, RefOp.releaseWeak]
        initBlock).blockDtorCalls
        ≤ (run [RefOp.addWeak, RefOp.releaseStrong, RefOp.releaseWeak]
            initBlock).dataDtorCalls :=
  release_weak_destroys_storage_after_payload
    [RefOp.addWeak, RefOp.releaseStrong, RefOp.releaseWeak] (by decide)

/-- C3: the weak-to-strong upgrade fails and mutates nothing when
`strong_refs` is 0, otherwise succeeds and increments `strong_refs` by
exactly 1; moreover no valid reference-counting operation ever moves
`strong_refs` from 0 back to a positive value. -/
theorem upgrade_weak_never_resurrects :
    (∀ s : BlockState, s.strong_refs = 0 →
      intrusive_ptr_upgrade_weak s = (false, s))
    ∧ (∀ s : BlockState, 0 < s.strong_refs →
      intrusive_ptr_upgrade_weak s
        = (true, { s with strong_refs := s.strong_refs + 1 }))
    ∧ (∀ (op : RefOp) (s : BlockState), validOp op s = true →
      s.strong_refs = 0 → (step op s).strong_refs = 0) := by
  refine ⟨?_, ?_, ?_⟩
  · intro s hs
    simp [intrusive_ptr_upgrade_weak, hs]
  · intro s hs
    simp [intrusive_ptr_upgrade_weak, Nat.pos_iff_ne_zero.mp hs]
  · intro op s hv hs
    cases op <;>
      simp only [step, validOp, intrusive_ptr_add_ref, intrusive_ptr_release,
        intrusive_ptr_release_weak, intrusive_ptr_add_weak_ref,
        intrusive_ptr_upgrade_weak, decide_eq_true_eq] at hv ⊢ <;>
      (try split_ifs) <;>
      simp_all

/-- Witness for C3 at a concrete dead-actor state: upgrading with
`strong_refs = 0` fails and leaves the state unchanged. -/
theorem upgrade_weak_never_resurrects_witness :
    intrusive_ptr_upgrade_weak
        { strong_refs := 0, weak_refs := 1, dataDtorCalls := 1,
          blockDtorCalls := 0 }
      = (false,
        { strong_refs := 0, weak_refs := 1, dataDtorCalls := 1,
          blockDtorCalls := 0 }) :=
  upgrade_weak_never_resurrects.1
    { strong_refs := 0, weak_refs := 1, dataDtorCalls := 1,
      blockDtorCalls := 0 } rfl

/-- Actor id: `actor_id` is an unsigned integer type. -/
abbrev ActorId := Nat

/-- Value of a `node_id`. The header's static assertion states that
`node_id` is pointer-sized; it is an owning handle whose default/empty
state (`none` here) denotes the invalid node id. -/
abbrev NodeIdV := Option Nat

/-- Modelled from the spec: `node_id`'s move constructor is not among the
sources at hand (only the header's static assertion that `node_id` is a
pointer-sized handle is). `std::move` on such a handle transfers its value
and leaves the source in the empty (invalid) state; the pair returned is
(value taken by the destination, state left in the source). -/
def node_id_move (y : NodeIdV) : NodeIdV × NodeIdV := (y, none)

/-- Fields of `actor_control_block` (actor_control_block.hpp:71-77).
Pointers (`home_system`) and the two stored destructor function pointers
(`data_dtor`, `block_dtor`) are modelled by numeric stand-ins, since only
their identity matters here. -/
structure actor_control_block where
  strong_refs : Nat
  weak_refs : Nat
  aid : ActorId
  nid : NodeIdV
  home_system : Nat
  data_dtor : Nat
  block_dtor : Nat
deriving DecidableEq, Repr

/-- Constructor of `actor_control_block` (actor_control_block.hpp:56-66):
`strong_refs(1), weak_refs(1), aid(x), nid(std::move(y)), home_system(sys),
data_dtor(ddtor), block_dtor(bdtor)`. It returns the constructed block
together with the post-move state of the caller's `node_id` argument `y`
(the only argument taken by reference; all others are passed by value). -/
def actor_control_block.ctor (x : ActorId) (y : NodeIdV) (sys ddtor bdtor : Nat) :
    actor_control_block × NodeIdV :=
  let m := node_id_move y
  ({ strong_refs := 1, weak_refs := 1, aid := x, nid := m.1,
     home_system := sys, data_dtor := ddtor, block_dtor := bdtor }, m.2)

/-- Accessor `id()` (actor_control_block.hpp:110-112): returns `aid`. -/
def actor_control_block.id (b : actor_control_block) : ActorId := b.aid

/-- Accessor `node()` (actor_control_block.hpp:114-116): returns `nid`. -/
def actor_control_block.node (b : actor_control_block) : NodeIdV := b.nid

/-- C4: constructing an `actor_control_block` initializes `strong_refs` to
exactly 1 and `weak_refs` to exactly 1, and stores the given `actor_id` and
`node_id` as the block's identity, as reported by the read-only accessors
`id()` and `node()` (the `aid`/`nid` fields are declared `const` in the
header, so this identity is immutable). -/
theorem ctor_initializes_counts_and_identity
    (x : ActorId) (y : NodeIdV) (sys ddtor bdtor : Nat) :
    (actor_control_block.ctor x y sys ddtor bdtor).1.strong_refs = 1
    ∧ (actor_control_block.ctor x y sys ddtor bdtor).1.weak_refs = 1
    ∧ (actor_control_block.ctor x y sys ddtor bdtor).1.aid = x
    ∧ (actor_control_block.ctor x y sys ddtor bdtor).1.nid = y
    ∧ (actor_control_block.ctor x y sys ddtor bdtor).1.id = x
    ∧ (actor_control_block.ctor x y sys ddtor bdtor).1.node = y := by
  simp [actor_control_block.ctor, actor_control_block.id,
    actor_control_block.node, node_id_move]

/-- C10: the constructor moves from its `node_id` reference argument,
leaving the caller's object in the moved-from empty state while the block's
`nid` field takes over its value; the remaining arguments are passed by
value and are stored unchanged (construction mutates nothing else). -/
theorem ctor_moves_from_node_id
    (x : ActorId) (y : NodeIdV) (sys ddtor bdtor : Nat) :
    (actor_control_block.ctor x y sys ddtor bdtor).2 = none
    ∧ (actor_control_block.ctor x y sys ddtor bdtor).1.nid = y
    ∧ (actor_control_block.ctor x y sys ddtor bdtor).1.home_system = sys
    ∧ (actor_control_block.ctor x y sys ddtor bdtor).1.data_dtor = ddtor
    ∧ (actor_control_block.ctor x y sys ddtor bdtor).1.block_dtor = bdtor := by
  simp [actor_control_block.ctor, node_id_move]

/-- The fixed cache-line-sized offset `CAF_CACHE_LINE_SIZE` used by the
single-allocation layout (`caf/config.hpp` defines it as 64 bytes; the spec
calls it a compile-time constant identical for every actor type). -/
def CAF_CACHE_LINE_SIZE : Nat := 64

/-- Size of the address space: pointer arithmetic on `intptr_t` is modelled
as arithmetic modulo `2 ^ 64`. -/
def addrSpace : Nat := 2 ^ 64

/-- From the source (`actor_control_block::get`, actor_control_block.hpp:92-96):
`reinterpret_cast of this + CAF_CACHE_LINE_SIZE`, mapping the address of a
control block to the address of its actor payload. -/
def acb_get (thisAddr : Nat) : Nat :=
  (thisAddr + CAF_CACHE_LINE_SIZE) % addrSpace

/-- From the source (`actor_control_block::from`, actor_control_block.hpp:100-104):
`reinterpret_cast of ptr - CAF_CACHE_LINE_SIZE`, mapping the address of an
actor payload back to the address of its control block. -/
def acb_from (ptr : Nat) : Nat :=
  (ptr + (addrSpace - CAF_CACHE_LINE_SIZE)) % addrSpace

/-- C5: `get` and `from` are inverse constant-offset maps using the single
fixed constant `CAF_CACHE_LINE_SIZE`: for every control-block address `b`,
`from (get b) = b`, and for every payload address `p`, `get (from p) = p`,
with no stored cross-pointer involved. -/
theorem get_from_inverse (b p : Nat) (hb : b < addrSpace) (hp : p < addrSpace) :
    acb_from (acb_get b) = b ∧ acb_get (acb_from p) = p := by
  simp only [acb_get, acb_from, CAF_CACHE_LINE_SIZE, addrSpace] at *
  constructor <;> omega

/-- Witness for C5 at the concrete addresses 4096 and 8256. -/
theorem get_from_inverse_witness :
    acb_from (acb_get 4096) = 4096 ∧ acb_get (acb_from 8256) = 8256 :=
  get_from_inverse 4096 8256 (by norm_num [addrSpace]) (by norm_num [addrSpace])

/-- Error codes of the `sec` enum relevant here: the resolution error
returned when an identity resolves to no known local or remote actor
(and when saving a handle whose actor is already gone). -/
inductive Sec where
  | unknown_actor
deriving DecidableEq, Repr

/-- Identity carried by a populated strong handle: the `(aid, nid)` pair
read from its control block. -/
structure ActorIdentity where
  aid : ActorId
  nid : NodeIdV
deriving DecidableEq, Repr

/-- Value stored in one serialized field: either an actor id or a node id.
No constructor exists for payload data or reference counts, mirroring that
the inspect hooks only ever pass identity components to the inspector. -/
inductive WireValue where
  | actorIdVal (a : ActorId)
  | nodeIdVal (n : NodeIdV)
deriving DecidableEq, Repr

/-- One named field handed to the serialization collaborator
(`f.field(name, value)` in the source). -/
structure WireField where
  name : String
  val : WireValue
deriving DecidableEq, Repr

/-- Modelled from the spec: the generic structured-field writer
(`f.object(x).pretty_name("actor").on_save(cb).fields(...)`) is an external
collaborator. Per the spec, the registered save hook performs the
resolution bridge and a hook failure fails the whole serialization
operation, in which case no field output is produced; on success exactly
the given named fields are emitted. -/
def saveObject (hook : Except Sec Unit) (fs : List WireField) :
    Except Sec (List WireField) :=
  match hook with
  | .error e => .error e
  | .ok _ => .ok fs

/-- Modelled from the spec: `save_actor` is only declared in the header.
Per the spec, saving emits the identity of a populated strong handle (a
reference, not a snapshot) and fails the whole operation when the handle
holds no live actor (the weak-handle path reaches this with an empty
handle after a failed lock). -/
def save_actor (storage : Option ActorIdentity) : Except Sec Unit :=
  match storage with
  | some _ => .ok ()
  | none => .error Sec.unknown_actor

/-- Save direction of `inspect(Inspector&, strong_actor_ptr&)`
(actor_control_block.hpp:189-206): `aid` starts at 0 and `nid` at the
default node id; if the handle is populated they are overwritten with
`x->aid` and `x->nid`; then the object is written with the save hook
`save_actor` and the two fields `field("id", aid)` and
`field("node", nid)`. -/
def inspect_strong_save (x : Option ActorIdentity) : Except Sec (List WireField) :=
  let aid : ActorId := match x with | some c => c.aid | none => 0
  let nid : NodeIdV := match x with | some c => c.nid | none => none
  saveObject (save_actor x)
    [{ name := "id", val := WireValue.actorIdVal aid },
     { name := "node", val := WireValue.nodeIdVal nid }]

/-- Lock (weak-to-strong upgrade) of a `weak_actor_ptr` pointing at a
control block: succeeds with the block's identity iff a strong reference
still exists (`intrusive_ptr_upgrade_weak` succeeds), else yields the
empty handle. -/
def lock (w : Option actor_control_block) : Option ActorIdentity :=
  match w with
  | some b => if 0 < b.strong_refs then some { aid := b.aid, nid := b.nid } else none
  | none => none

/-- Save direction of `inspect(Inspector&, weak_actor_ptr&)`
(actor_control_block.hpp:208-222): `auto tmp = x.lock(); return
inspect(f, tmp);` — the weak handle is first resolved to a strong one,
then inspected as a strong handle. -/
def inspect_weak_save (w : Option actor_control_block) : Except Sec (List WireField) :=
  inspect_strong_save (lock w)

/-- C6: serializing (saving) a weak handle whose actor payload is already
gone — i.e. whose lock/upgrade fails — fails the whole serialization
operation with a resolution error instead of producing any field output. -/
theorem dead_weak_handle_save_fails (w : Option actor_control_block)
    (h : lock w = none) :
    inspect_weak_save w = Except.error Sec.unknown_actor := by
  simp [inspect_weak_save, h, inspect_strong_save, save_actor, saveObject]

/-- Witness for C6 at a concrete expired block (`strong_refs = 0`). -/
theorem dead_weak_handle_save_fails_witness :
    inspect_weak_save
        (some { strong_refs := 0, weak_refs := 1, aid := 7, nid := some 3,
                home_system := 0, data_dtor := 0, block_dtor := 0 })
      = Except.error Sec.unknown_actor :=
  dead_weak_handle_save_fails
    (some { strong_refs := 0, weak_refs := 1, aid := 7, nid := some 3,
            home_system := 0, data_dtor := 0, block_dtor := 0 }) rfl

/-- C7: the serialized representation of a populated strong handle is
exactly the two named fields `id` (the identity's local actor id) and
`node` (the identity's node id) — no payload data and no reference counts
appear in the output. -/
theorem strong_handle_saves_exactly_identity_fields (c : ActorIdentity) :
    inspect_strong_save (some c)
      = Except.ok
          [{ name := "id", val := WireValue.actorIdVal c.aid },
           { name := "node", val := WireValue.nodeIdVal c.nid }] := rfl

/-- Local-actor registry of the runtime instance, mapping each live local
actor id to the current `strong_refs` count of its control block, plus the
set of known remote node ids for which a proxy can be produced. -/
structure LoadWorld where
  localNode : NodeIdV
  registry : List (ActorId × Nat)
  remotes : List NodeIdV
deriving DecidableEq, Repr

/-- Look up a live local actor's strong count in the registry. -/
def regLookup : List (ActorId × Nat) → ActorId → Option Nat
  | [], _ => none
  | (a, c) :: rest, x => if a = x then some c else regLookup rest x

/-- Increment the strong count of the registry entry for `x` (the effect of
handing out one new strong handle to that actor). -/
def regBump : List (ActorId × Nat) → ActorId → List (ActorId × Nat)
  | [], _ => []
  | (a, c) :: rest, x =>
    if a = x then (a, c + 1) :: rest else (a, c) :: regBump rest x

theorem regLookup_regBump (r : List (ActorId × Nat)) (a : ActorId) :
    regLookup (regBump r a) a = (regLookup r a).map (· + 1) := by
  induction r with
  | nil => rfl
  | cons p rest ih =>
    by_cases h : p.1 = a <;> simp [regBump, regLookup, h, ih]

/-- Modelled from the spec: `load_actor` is only declared in the header.
Per the spec: if the node id matches the local runtime instance and the
actor id resolves to a live local actor, a strong handle to it is produced
(incrementing its `strong_count`); if the node id is a known remote
instance, a handle to a proxy is produced; otherwise the operation fails
with a resolution error and leaves the target handle empty. The result is
(error code, target strong-handle storage, updated world). -/
def load_actor (w : LoadWorld) (aid : ActorId) (nid : NodeIdV) :
    Except Sec Unit × Option ActorIdentity × LoadWorld :=
  if nid = w.localNode then
    match regLookup w.registry aid with
    | some _ =>
      (Except.ok (), some { aid := aid, nid := nid },
        { w with registry := regBump w.registry aid })
    | none => (Except.error Sec.unknown_actor, none, w)
  else if w.remotes.contains nid then
    (Except.ok (), some { aid := aid, nid := nid }, w)
  else
    (Except.error Sec.unknown_actor, none, w)

/-- C8: saving a strong handle to a still-live local actor emits exactly
its identity, and loading that identity back succeeds, yields a strong
handle with the identical `(local_id, node_id)` identity, and increments
the actor's `strong_count` by exactly 1 relative to its value just before
the load. -/
theorem save_load_round_trip (w : LoadWorld) (a : ActorId) (n : NodeIdV)
    (c : Nat) (hn : n = w.localNode) (hc : regLookup w.registry a = some c) :
    inspect_strong_save (some { aid := a, nid := n })
      = Except.ok
          [{ name := "id", val := WireValue.actorIdVal a },
           { name := "node", val := WireValue.nodeIdVal n }]
    ∧ (load_actor w a n).1 = Except.ok ()
    ∧ (load_actor w a n).2.1 = some { aid := a, nid := n }
    ∧ regLookup (load_actor w a n).2.2.registry a = some (c + 1) := by
  refine ⟨rfl, ?_, ?_, ?_⟩ <;>
    simp [load_actor, hn, hc, regLookup_regBump]

/-- Witness for C8 at a concrete world holding live local actor 7 with
strong count 2 on local node 1. -/
theorem save_load_round_trip_witness :
    inspect_strong_save (some { aid := 7, nid := some 1 })
      = Except.ok
          [{ name := "id", val := WireValue.actorIdVal 7 },
           { name := "node", val := WireValue.nodeIdVal (some 1) }]
    ∧ (load_actor { localNode := some 1, registry := [(7, 2)], remotes := [] }
        7 (some 1)).1 = Except.ok ()
    ∧ (load_actor { localNode := some 1, registry := [(7, 2)], remotes := [] }
        7 (some 1)).2.1 = some { aid := 7, nid := some 1 }
    ∧ regLookup
        (load_actor { localNode := some 1, registry := [(7, 2)], remotes := [] }
          7 (some 1)).2.2.registry 7 = some (2 + 1) :=
  save_load_round_trip
    { localNode := some 1, registry := [(7, 2)], remotes := [] }
    7 (some 1) 2 rfl rfl

/-- C9: loading an identity that resolves to no known local or remote
actor returns the resolution error code, leaves the target strong-handle
storage empty, and changes nothing in the world. -/
theorem load_unknown_identity_fails (w : LoadWorld) (a : ActorId) (n : NodeIdV)
    (hlocal : n = w.localNode → regLookup w.registry a = none)
    (hremote : w.remotes.contains n = false) :
    (load_actor w a n).1 = Except.error Sec.unknown_actor
    ∧ (load_actor w a n).2.1 = none
    ∧ (load_actor w a n).2.2 = w := by
  by_cases hn : n = w.localNode
  · simp [load_actor, hn, hlocal hn]
  · have h2 : n ∉ w.remotes := by simpa using hremote
    simp [load_actor, hn, h2]

/-- Witness for C9 at a concrete world that knows neither the actor id nor
the node id. -/
theorem load_unknown_identity_fails_witness :
    (load_actor { localNode := some 1, registry := [], remotes := [] }
        9 (some 2)).1 = Except.error Sec.unknown_actor
    ∧ (load_actor { localNode := some 1, registry := [], remotes := [] }
        9 (some 2)).2.1 = none
    ∧ (load_actor { localNode := some 1, registry := [], remotes := [] }
        9 (some 2)).2.2
      = { localNode := some 1, registry := [], remotes := [] } :=
  load_unknown_identity_fails
    { localNode := some 1, registry := [], remotes := [] }
    9 (some 2) (fun h => by simp at h) rfl

end CafModel
